import Mathlib

/-!
# Game API client (`frontend/src/api/gameApi.js`)

A shallow embedding of the three exported asynchronous functions `joinGame`,
`getGameState` and `addBots`, and theorems about the requests they hand to the
HTTP transport (`axios`) and the results they settle with.

* JavaScript values are the type `JsVal`.
* The identifiers `lobbyCode` and `gameID` are strings (the LobbyCode and
  SessionId of the data model); a template literal substitutes a string by
  itself, so the URL is the concatenation of its parts.
* The transport is a parameter (`Axios`): the module neither defines it nor the
  constant `API_BASE`, which is a parameter too.
* An `async` function is a state transformer over the network world `Net`
  (transport state plus the log of requests handed to the transport) that
  settles either fulfilled or rejected; `await` is the bind of that transformer.
-/

namespace GameApi

/-! ## Values -/

/-- JavaScript values reaching the module: the primitives and plain objects.
`num` stands for integer-valued Numbers. -/
inductive JsVal where
  | undefined
  | null
  | bool (b : Bool)
  | num (n : Int)
  | str (s : String)
  | obj (fields : List (String × JsVal))

/-- Binding of the i-th formal parameter at a call with the argument list
`args`: a missing argument is `undefined`. -/
def arg (args : List JsVal) (i : Nat) : JsVal :=
  args.getD i .undefined

/-- Default parameter initialiser `p = dflt`: the default is used exactly when
the bound argument is `undefined`. -/
def param (a dflt : JsVal) : JsVal :=
  match a with
  | .undefined => dflt
  | v => v

/-! ## Transport -/

/-- HTTP methods used by the module. -/
inductive Method where
  | GET
  | POST
  deriving DecidableEq

/-- What the module passes to the transport: `axios.get(url)` has no data,
`axios.post(url, data)` has the data object. No third (config) argument is
ever passed. -/
structure Request where
  method : Method
  url : String
  data : Option JsVal

/-- The response object a fulfilled transport promise carries. -/
structure Response where
  data : JsVal
  status : Nat

/-- Settlement of a promise. A rejection reason is any value. -/
inductive Settled (α : Type) where
  | fulfilled (value : α)
  | rejected (reason : JsVal)

/-- The transport collaborator: for a request and its own state it settles
with a response or a rejection and moves to a new state. -/
structure Axios (σ : Type) where
  respond : Request → σ → Settled Response × σ

/-- The network world: the transport state and every request handed to the
transport so far, oldest first. -/
structure Net (σ : Type) where
  st : σ
  sent : List Request

/-- An asynchronous computation run to settlement. -/
def Async (σ α : Type) : Type := Net σ → Settled α × Net σ

/-- The value `return v` of an async function fulfils with. -/
def Async.ret {σ α : Type} (v : α) : Async σ α :=
  fun w => (.fulfilled v, w)

/-- The step `const x = await p; k x`: a rejected `p` rejects the whole function
with the same reason (there is no `try`), a fulfilled one continues. -/
def Async.await {σ α β : Type} (p : Async σ α) (k : α → Async σ β) : Async σ β :=
  fun w =>
    match p w with
    | (.fulfilled x, w1) => k x w1
    | (.rejected e, w1) => (.rejected e, w1)

instance {σ : Type} : Monad (Async σ) where
  pure := Async.ret
  bind := Async.await

/-- One call of the transport: the request is logged and answered. -/
def Axios.request {σ : Type} (ax : Axios σ) (req : Request) : Async σ Response :=
  fun w =>
    let r := ax.respond req w.st
    (r.1, { st := r.2, sent := w.sent ++ [req] })

/-- Transport call `axios.post(url, data)`. -/
def Axios.post {σ : Type} (ax : Axios σ) (url : String) (data : JsVal) : Async σ Response :=
  ax.request { method := .POST, url := url, data := some data }

/-- Transport call `axios.get(url)`. -/
def Axios.get {σ : Type} (ax : Axios σ) (url : String) : Async σ Response :=
  ax.request { method := .GET, url := url, data := none }

/-! ## The module -/

/-- Source `joinGame(lobbyCode, playerName)`: one `axios.post` of the object
`{ playerName }` to the join URL, awaited, then `return resp.data`. -/
def joinGame {σ : Type} (ax : Axios σ) (API_BASE : String) (lobbyCode : String) (playerName : JsVal) :
    Async σ JsVal := do
  let resp ← ax.post (API_BASE ++ "/games/" ++ lobbyCode ++ "/join")
    (.obj [("playerName", playerName)])
  return resp.data

/-- Source `getGameState(gameID)`: one `axios.get` of the state URL, awaited,
then `return resp.data`. -/
def getGameState {σ : Type} (ax : Axios σ) (API_BASE : String) (gameID : String) :
    Async σ JsVal := do
  let resp ← ax.get (API_BASE ++ "/games/" ++ gameID ++ "/state")
  return resp.data

/-- Source `addBots(gameID, count = 1, strategy = 'smart', namePrefix = 'Bot')`,
given the values bound to its four formal parameters. -/
def addBots {σ : Type} (ax : Axios σ) (API_BASE : String)
    (gameID : String) (count strategy namePrefix : JsVal) : Async σ JsVal :=
  let count := param count (.num 1)
  let strategy := param strategy (.str "smart")
  let namePrefix := param namePrefix (.str "Bot")
  do
    let resp ← ax.post (API_BASE ++ "/games/" ++ gameID ++ "/add-bots")
      (.obj [("count", count), ("strategy", strategy), ("namePrefix", namePrefix)])
    return resp.data

/-- A call `addBots(gameID, ...rest)` with the optional arguments `rest`. -/
def addBotsCall {σ : Type} (ax : Axios σ) (API_BASE : String) (gameID : String)
    (rest : List JsVal) : Async σ JsVal :=
  addBots ax API_BASE gameID (arg rest 0) (arg rest 1) (arg rest 2)

/-! ## Request targets -/

/-- The URL `joinGame` builds. -/
def joinUrl (API_BASE : String) (lobbyCode : String) : String :=
  API_BASE ++ "/games/" ++ lobbyCode ++ "/join"

/-- The URL `getGameState` builds. -/
def stateUrl (API_BASE : String) (gameID : String) : String :=
  API_BASE ++ "/games/" ++ gameID ++ "/state"

/-- The URL `addBots` builds. -/
def addBotsUrl (API_BASE : String) (gameID : String) : String :=
  API_BASE ++ "/games/" ++ gameID ++ "/add-bots"

/-- The request `joinGame` hands to the transport. -/
def joinRequest (API_BASE : String) (lobbyCode : String) (playerName : JsVal) : Request :=
  { method := .POST, url := joinUrl API_BASE lobbyCode,
    data := some (.obj [("playerName", playerName)]) }

/-- The request `getGameState` hands to the transport. -/
def stateRequest (API_BASE : String) (gameID : String) : Request :=
  { method := .GET, url := stateUrl API_BASE gameID, data := none }

/-- The request `addBots` hands to the transport. -/
def addBotsRequest (API_BASE : String) (gameID : String) (count strategy namePrefix : JsVal) : Request :=
  { method := .POST, url := addBotsUrl API_BASE gameID,
    data := some (.obj [("count", param count (.num 1)),
      ("strategy", param strategy (.str "smart")),
      ("namePrefix", param namePrefix (.str "Bot"))]) }

/-- The part of an async function after `const resp = await ...`:
`return resp.data`, or rejection with the awaited promise's reason. -/
def afterAwait : Settled Response → Settled JsVal
  | .fulfilled resp => .fulfilled resp.data
  | .rejected e => .rejected e

/-! ## Transports used in examples -/

/-- A transport that fulfils every request with the same data. -/
def constAxios (d : JsVal) : Axios Unit :=
  { respond := fun _ s => (.fulfilled { data := d, status := 200 }, s) }

/-- A transport that rejects every request with the same reason. -/
def failingAxios (e : JsVal) : Axios Unit :=
  { respond := fun _ s => (.rejected e, s) }

/-- A transport whose state counts the requests it has answered and whose
answer is that count. -/
def countingAxios : Axios Nat :=
  { respond := fun _ n => (.fulfilled { data := .num n, status := 200 }, n + 1) }

/-- The world before any request. -/
def Net.init {σ : Type} (s : σ) : Net σ := { st := s, sent := [] }

/-- The requests a run handed to the transport: what the log gained over the
world `w` the run started in. -/
def issued {σ α : Type} (w : Net σ) (r : Settled α × Net σ) : List Request :=
  r.2.sent.drop w.sent.length

/-! ## Calls in flight -/

/-- The network as the event loop sees it while calls are pending: the
requests handed to the transport, oldest first, and the positions in that log
of the requests whose promise has not settled yet. -/
structure Loop where
  sent : List Request
  inflight : List Nat

/-- Calling `getGameState(gameID)`: the body runs synchronously up to its
`await`, so `axios.get` is called at once. The request is handed to the
transport and is outstanding; the caller holds a pending promise, identified
here by the position of its request in the log. -/
def getGameStateStart (API_BASE : String) (gameID : String) (l : Loop) : Nat × Loop :=
  let req : Request :=
    { method := .GET, url := API_BASE ++ "/games/" ++ gameID ++ "/state", data := none }
  (l.sent.length, { sent := l.sent ++ [req], inflight := l.inflight ++ [l.sent.length] })

/-- The transport promise of the call `t` settles with `ans`: the function
resumes after its `await` and the caller's promise settles. -/
def getGameStateResume (t : Nat) (ans : Settled Response) (l : Loop) : Settled JsVal × Loop :=
  (match ans with
    | .fulfilled resp => .fulfilled resp.data
    | .rejected e => .rejected e,
    { sent := l.sent, inflight := l.inflight.erase t })

/-- Calling `getGameState(gameID)` n times without awaiting in between, as
`Promise.all` over n calls does. Returns the pending calls and the loop. -/
def startMany (API_BASE : String) (gameID : String) : Nat → Loop → List Nat × Loop
  | 0, l => ([], l)
  | n + 1, l =>
    let r := getGameStateStart API_BASE gameID l
    let rs := startMany API_BASE gameID n r.2
    (r.1 :: rs.1, rs.2)

/-- The pending calls `ts` settle in order, the transport settling the request
at position `t` of the log with `answers t`: each call resumes with the answer
to its own request. Returns each call with what its caller receives. -/
def settleAll (answers : Nat → Settled Response) :
    List Nat → Loop → List (Nat × Settled JsVal) × Loop
  | [], l => ([], l)
  | t :: ts, l =>
    let r := getGameStateResume t (answers t) l
    let rs := settleAll answers ts r.2
    ((t, r.1) :: rs.1, rs.2)

/-! ## Predicates of the specification -/

/-- Property access `v.k` on a value of the model. -/
def JsVal.get (v : JsVal) (k : String) : JsVal :=
  match v with
  | .obj fields => (fields.lookup k).getD .undefined
  | _ => .undefined

/-- The identifier `k` of a response is absent or empty. -/
def lacksId (v : JsVal) (k : String) : Prop :=
  v.get k = .undefined ∨ v.get k = .null ∨ v.get k = .str ""

/-! ## Running the functions -/

theorem joinGame_run {σ : Type} (ax : Axios σ) (API_BASE : String)
    (lobbyCode : String) (playerName : JsVal) (w : Net σ) :
    joinGame ax API_BASE lobbyCode playerName w =
      (afterAwait (ax.respond (joinRequest API_BASE lobbyCode playerName) w.st).1,
        { st := (ax.respond (joinRequest API_BASE lobbyCode playerName) w.st).2,
          sent := w.sent ++ [joinRequest API_BASE lobbyCode playerName] }) := by
  show Async.await _ _ w = _
  unfold Async.await Axios.post Axios.request joinRequest joinUrl
  cases h : (ax.respond _ w.st).1 <;> simp [h, afterAwait, pure, Async.ret]

theorem getGameState_run {σ : Type} (ax : Axios σ) (API_BASE : String)
    (gameID : String) (w : Net σ) :
    getGameState ax API_BASE gameID w =
      (afterAwait (ax.respond (stateRequest API_BASE gameID) w.st).1,
        { st := (ax.respond (stateRequest API_BASE gameID) w.st).2,
          sent := w.sent ++ [stateRequest API_BASE gameID] }) := by
  show Async.await _ _ w = _
  unfold Async.await Axios.get Axios.request stateRequest stateUrl
  cases h : (ax.respond _ w.st).1 <;> simp [h, afterAwait, pure, Async.ret]

theorem addBots_run {σ : Type} (ax : Axios σ) (API_BASE : String)
    (gameID : String) (count strategy namePrefix : JsVal) (w : Net σ) :
    addBots ax API_BASE gameID count strategy namePrefix w =
      (afterAwait (ax.respond (addBotsRequest API_BASE gameID count strategy namePrefix) w.st).1,
        { st := (ax.respond (addBotsRequest API_BASE gameID count strategy namePrefix) w.st).2,
          sent := w.sent ++ [addBotsRequest API_BASE gameID count strategy namePrefix] }) := by
  show Async.await _ _ w = _
  unfold Async.await Axios.post Axios.request addBotsRequest addBotsUrl
  cases h : (ax.respond _ w.st).1 <;> simp [h, afterAwait, pure, Async.ret]

theorem joinGame_issued {σ : Type} (ax : Axios σ) (API_BASE : String)
    (lobbyCode : String) (playerName : JsVal) (w : Net σ) :
    issued w (joinGame ax API_BASE lobbyCode playerName w) =
      [joinRequest API_BASE lobbyCode playerName] := by
  rw [joinGame_run]; simp [issued]

theorem getGameState_issued {σ : Type} (ax : Axios σ) (API_BASE : String)
    (gameID : String) (w : Net σ) :
    issued w (getGameState ax API_BASE gameID w) = [stateRequest API_BASE gameID] := by
  rw [getGameState_run]; simp [issued]

theorem addBots_issued {σ : Type} (ax : Axios σ) (API_BASE : String)
    (gameID : String) (count strategy namePrefix : JsVal) (w : Net σ) :
    issued w (addBots ax API_BASE gameID count strategy namePrefix w) =
      [addBotsRequest API_BASE gameID count strategy namePrefix] := by
  rw [addBots_run]; simp [issued]

theorem str_append_right_cancel {a b s : String} (h : a ++ s = b ++ s) : a = b := by
  have h1 := congrArg String.data h
  simp only [String.data_append] at h1
  exact String.ext (List.append_cancel_right h1)

theorem str_append_left_cancel {a b s : String} (h : s ++ a = s ++ b) : a = b := by
  have h1 := congrArg String.data h
  simp only [String.data_append] at h1
  exact String.ext (List.append_cancel_left h1)

theorem join_ne_addBots_suffix (x y : String) : x ++ "/join" ≠ y ++ "/add-bots" := by
  intro h
  have h1 := congrArg (fun t => t.data.reverse) h
  simp [String.data_append] at h1

theorem param_supplied {a : JsVal} (d : JsVal) (h : a ≠ .undefined) : param a d = a := by
  cases a <;> first | rfl | exact absurd rfl h

theorem empty_code_url (API_BASE : String) :
    API_BASE ++ "/games/" ++ "" ++ "/join" = API_BASE ++ "/games//join" := by
  show API_BASE ++ "/games/" ++ "" ++ "/join" = _
  rw [String.append_empty, String.append_assoc]
  rfl

/-- A sequential call is the start of the call, the transport's answer, and
the resumption with that answer. -/
theorem getGameState_start_resume {σ : Type} (ax : Axios σ) (API_BASE : String)
    (gameID : String) (w : Net σ) :
    (getGameState ax API_BASE gameID w).2.sent =
      (getGameStateStart API_BASE gameID ⟨w.sent, []⟩).2.sent ∧
    (getGameState ax API_BASE gameID w).1 =
      (getGameStateResume (getGameStateStart API_BASE gameID ⟨w.sent, []⟩).1
        (ax.respond (stateRequest API_BASE gameID) w.st).1
        (getGameStateStart API_BASE gameID ⟨w.sent, []⟩).2).1 := by
  rw [getGameState_run]
  refine ⟨rfl, ?_⟩
  cases (ax.respond (stateRequest API_BASE gameID) w.st).1 <;> rfl

theorem startMany_spec (API_BASE : String) (gameID : String) (n : Nat) :
    ∀ l : Loop,
      (startMany API_BASE gameID n l).1 = List.range' l.sent.length n ∧
      (startMany API_BASE gameID n l).2.sent =
        l.sent ++ List.replicate n (stateRequest API_BASE gameID) ∧
      (startMany API_BASE gameID n l).2.inflight =
        l.inflight ++ List.range' l.sent.length n := by
  induction n with
  | zero => intro l; simp [startMany]
  | succ n ih =>
    intro l
    obtain ⟨h1, h2, h3⟩ := ih (getGameStateStart API_BASE gameID l).2
    refine ⟨?_, ?_, ?_⟩
    · simp only [startMany, h1]
      simp [getGameStateStart, List.range'_succ]
    · simp only [startMany, h2]
      simp [getGameStateStart, stateRequest, stateUrl, List.replicate_succ]
    · simp only [startMany, h3]
      simp [getGameStateStart, List.range'_succ]

theorem getGameStateResume_fst (t : Nat) (ans : Settled Response) (l : Loop) :
    (getGameStateResume t ans l).1 = afterAwait ans := by
  cases ans <;> rfl

theorem settleAll_results (answers : Nat → Settled Response) (ts : List Nat) :
    ∀ l : Loop, (settleAll answers ts l).1 = ts.map (fun t => (t, afterAwait (answers t))) := by
  induction ts with
  | nil => intro l; rfl
  | cons t ts ih =>
    intro l
    simp only [settleAll, List.map, ih, getGameStateResume_fst]

theorem settleAll_loop (answers : Nat → Settled Response) (ts : List Nat) :
    ∀ l : Loop, l.inflight = ts →
      (settleAll answers ts l).2.inflight = [] ∧ (settleAll answers ts l).2.sent = l.sent := by
  induction ts with
  | nil => intro l h; exact ⟨h, rfl⟩
  | cons t ts ih =>
    intro l h
    have h1 : (getGameStateResume t (answers t) l).2.inflight = ts := by
      simp [getGameStateResume, h]
    obtain ⟨h2, h3⟩ := ih (getGameStateResume t (answers t) l).2 h1
    exact ⟨h2, h3⟩

theorem replicate_at (req : Request) (pre : List Request) (n t : Nat)
    (ht : t ∈ List.range' pre.length n) : (pre ++ List.replicate n req)[t]? = some req := by
  rw [List.mem_range'_1] at ht
  rw [List.getElem?_append_right ht.1, List.getElem?_replicate]
  have : t - pre.length < n := by omega
  simp [this]

/-! ## Theorems -/

/-- C1: for every gameID, addBots hands the transport one POST whose body is
exactly the object with the fields count, strategy and namePrefix, in which
each field is the caller's argument when one is supplied (bound to a value
other than undefined) and otherwise the default 1, "smart", "Bot"; the call
addBots(gameID) sends count 1, strategy "smart", namePrefix "Bot", and a
supplied strategy is passed through unchanged. -/
theorem addBots_request_body {σ : Type} (ax : Axios σ) (API_BASE : String)
    (gameID : String) (count strategy namePrefix : JsVal) (w : Net σ) :
    (∃ c s p : JsVal,
      (addBots ax API_BASE gameID count strategy namePrefix w).2.sent =
        w.sent ++ [⟨.POST, API_BASE ++ "/games/" ++ gameID ++ "/add-bots",
          some (.obj [("count", c), ("strategy", s), ("namePrefix", p)])⟩] ∧
      (count = .undefined → c = .num 1) ∧ (count ≠ .undefined → c = count) ∧
      (strategy = .undefined → s = .str "smart") ∧ (strategy ≠ .undefined → s = strategy) ∧
      (namePrefix = .undefined → p = .str "Bot") ∧
      (namePrefix ≠ .undefined → p = namePrefix)) ∧
    (addBotsCall ax API_BASE gameID [] w).2.sent =
      w.sent ++ [⟨.POST, API_BASE ++ "/games/" ++ gameID ++ "/add-bots",
        some (.obj [("count", .num 1), ("strategy", .str "smart"),
          ("namePrefix", .str "Bot")])⟩] ∧
    (∀ t : String, (addBotsCall ax API_BASE gameID [.num 2, .str t] w).2.sent =
      w.sent ++ [⟨.POST, API_BASE ++ "/games/" ++ gameID ++ "/add-bots",
        some (.obj [("count", .num 2), ("strategy", .str t),
          ("namePrefix", .str "Bot")])⟩]) := by
  refine ⟨⟨param count (.num 1), param strategy (.str "smart"),
    param namePrefix (.str "Bot"), ?_, ?_, ?_, ?_, ?_, ?_, ?_⟩, ?_, ?_⟩
  · rw [addBots_run]; rfl
  · intro h; rw [h]; rfl
  · exact param_supplied _
  · intro h; rw [h]; rfl
  · exact param_supplied _
  · intro h; rw [h]; rfl
  · exact param_supplied _
  · unfold addBotsCall; rw [addBots_run]; rfl
  · intro t; unfold addBotsCall; rw [addBots_run]; rfl

/-- C2: for every lobbyCode and playerName, joinGame hands the transport
exactly one request, a POST to API_BASE + "/games/" + lobbyCode + "/join" whose
body is the object with the single field playerName holding the given
playerName, and when the transport fulfils it returns the response's data
unchanged. -/
theorem joinGame_single_post {σ : Type} (ax : Axios σ) (API_BASE : String)
    (lobbyCode : String) (playerName : JsVal) (w : Net σ) :
    (joinGame ax API_BASE lobbyCode playerName w).2.sent =
      w.sent ++ [⟨.POST, API_BASE ++ "/games/" ++ lobbyCode ++ "/join",
        some (.obj [("playerName", playerName)])⟩] ∧
    (joinGame ax API_BASE lobbyCode playerName w).2.st =
      (ax.respond ⟨.POST, API_BASE ++ "/games/" ++ lobbyCode ++ "/join",
        some (.obj [("playerName", playerName)])⟩ w.st).2 ∧
    (∀ resp : Response,
      (ax.respond ⟨.POST, API_BASE ++ "/games/" ++ lobbyCode ++ "/join",
        some (.obj [("playerName", playerName)])⟩ w.st).1 = .fulfilled resp →
      (joinGame ax API_BASE lobbyCode playerName w).1 = .fulfilled resp.data) := by
  refine ⟨?_, ?_, ?_⟩
  · rw [joinGame_run]; rfl
  · rw [joinGame_run]; rfl
  · intro resp h
    rw [joinGame_run]
    show afterAwait (ax.respond ⟨.POST, API_BASE ++ "/games/" ++ lobbyCode ++ "/join",
        some (.obj [("playerName", playerName)])⟩ w.st).1 = _
    rw [h]; rfl

/-- Witness for C2 with a transport that fulfils: the data comes back unchanged
and one POST is logged. -/
theorem joinGame_single_post_witness :
    (joinGame (constAxios (.obj [("sessionId", .str "s1"), ("playerId", .str "p1")]))
        "http://h/api" "ABCD" (.str "Ann") (Net.init ())).1 =
      .fulfilled (.obj [("sessionId", .str "s1"), ("playerId", .str "p1")]) ∧
    (joinGame (constAxios (.obj [("sessionId", .str "s1"), ("playerId", .str "p1")]))
        "http://h/api" "ABCD" (.str "Ann") (Net.init ())).2.sent =
      [⟨.POST, "http://h/api" ++ "/games/" ++ "ABCD" ++ "/join",
        some (.obj [("playerName", .str "Ann")])⟩] :=
  ⟨(joinGame_single_post (constAxios (.obj [("sessionId", .str "s1"), ("playerId", .str "p1")]))
      "http://h/api" "ABCD" (.str "Ann") (Net.init ())).2.2
      ⟨.obj [("sessionId", .str "s1"), ("playerId", .str "p1")], 200⟩ rfl,
   (joinGame_single_post (constAxios (.obj [("sessionId", .str "s1"), ("playerId", .str "p1")]))
      "http://h/api" "ABCD" (.str "Ann") (Net.init ())).1⟩

/-- C3: getGameState does no caching. Every call hands the transport exactly
one GET to API_BASE + "/games/" + gameID + "/state" and returns that response's
data unchanged; of two successive calls with the same gameID each returns what
the transport answered for that call, the second being answered in the state
the first left the transport in. With a transport that answers with the number
of requests it has seen, the two calls return 0 and 1. -/
theorem getGameState_no_caching {σ : Type} (ax : Axios σ) (API_BASE : String)
    (gameID : String) (w : Net σ) :
    (getGameState ax API_BASE gameID w).2.sent =
      w.sent ++ [⟨.GET, API_BASE ++ "/games/" ++ gameID ++ "/state", none⟩] ∧
    (getGameState ax API_BASE gameID (getGameState ax API_BASE gameID w).2).2.sent =
      w.sent ++ [⟨.GET, API_BASE ++ "/games/" ++ gameID ++ "/state", none⟩,
        ⟨.GET, API_BASE ++ "/games/" ++ gameID ++ "/state", none⟩] ∧
    (∀ resp : Response,
      (ax.respond ⟨.GET, API_BASE ++ "/games/" ++ gameID ++ "/state", none⟩ w.st).1 =
        .fulfilled resp →
      (getGameState ax API_BASE gameID w).1 = .fulfilled resp.data) ∧
    (∀ resp : Response,
      (ax.respond ⟨.GET, API_BASE ++ "/games/" ++ gameID ++ "/state", none⟩
        (ax.respond ⟨.GET, API_BASE ++ "/games/" ++ gameID ++ "/state", none⟩ w.st).2).1 =
        .fulfilled resp →
      (getGameState ax API_BASE gameID (getGameState ax API_BASE gameID w).2).1 =
        .fulfilled resp.data) ∧
    (getGameState countingAxios API_BASE gameID (Net.init 0)).1 = .fulfilled (.num 0) ∧
    (getGameState countingAxios API_BASE gameID
      (getGameState countingAxios API_BASE gameID (Net.init 0)).2).1 = .fulfilled (.num 1) := by
  refine ⟨?_, ?_, ?_, ?_, ?_, ?_⟩
  · rw [getGameState_run]; rfl
  · rw [getGameState_run, getGameState_run]
    simp [stateRequest, stateUrl]
  · intro resp h
    rw [getGameState_run]
    show afterAwait (ax.respond ⟨.GET, API_BASE ++ "/games/" ++ gameID ++ "/state",
      none⟩ w.st).1 = _
    rw [h]; rfl
  · intro resp h
    rw [getGameState_run, getGameState_run]
    show afterAwait (ax.respond ⟨.GET, API_BASE ++ "/games/" ++ gameID ++ "/state", none⟩
      (ax.respond ⟨.GET, API_BASE ++ "/games/" ++ gameID ++ "/state", none⟩ w.st).2).1 = _
    rw [h]; rfl
  · rfl
  · rfl

/-- Witness for C3 with a transport that fulfils: two successive calls return
the second answer after the first, 0 then 1. -/
theorem getGameState_no_caching_witness :
    (getGameState countingAxios "http://h/api" "g7" (Net.init 0)).1 =
      .fulfilled (.num 0) ∧
    (getGameState countingAxios "http://h/api" "g7"
      (getGameState countingAxios "http://h/api" "g7" (Net.init 0)).2).1 =
      .fulfilled (.num 1) :=
  ⟨(getGameState_no_caching countingAxios "http://h/api" "g7" (Net.init 0)).2.2.1
      ⟨.num 0, 200⟩ rfl,
   (getGameState_no_caching countingAxios "http://h/api" "g7" (Net.init 0)).2.2.2.1
      ⟨.num 1, 200⟩ rfl⟩

/-- C10: request targets identify the session unambiguously. For a fixed
API_BASE and any transports and worlds, the URLs of the requests joinGame hands
to the transport determine the lobby code (two calls with equal request URLs
were given the same lobby code, whatever their player names), likewise the
URLs of getGameState and of addBots determine the game id; every request of
joinGame and of addBots is a POST, every request of getGameState is a GET, and
two requests issued by different operations never have both the same method
and the same URL: a joinGame POST URL never equals an addBots POST URL, for any
lobby code and game id. -/
theorem request_urls_unambiguous {σ τ : Type} (API_BASE : String) (ax : Axios σ)
    (ax' : Axios τ) (w : Net σ) (w' : Net τ) :
    (∀ (a b : String) (p q : JsVal),
      (issued w (joinGame ax API_BASE a p w)).map Request.url =
        (issued w' (joinGame ax' API_BASE b q w')).map Request.url → a = b) ∧
    (∀ a b : String,
      (issued w (getGameState ax API_BASE a w)).map Request.url =
        (issued w' (getGameState ax' API_BASE b w')).map Request.url → a = b) ∧
    (∀ (a b : String) (c s n c' s' n' : JsVal),
      (issued w (addBots ax API_BASE a c s n w)).map Request.url =
        (issued w' (addBots ax' API_BASE b c' s' n' w')).map Request.url → a = b) ∧
    (∀ (lobbyCode gameID : String) (p c s n : JsVal),
      (issued w (joinGame ax API_BASE lobbyCode p w)).map Request.method = [.POST] ∧
      (issued w' (addBots ax' API_BASE gameID c s n w')).map Request.method = [.POST] ∧
      (issued w (getGameState ax API_BASE gameID w)).map Request.method = [.GET] ∧
      (∀ r ∈ issued w (joinGame ax API_BASE lobbyCode p w),
        ∀ r' ∈ issued w' (addBots ax' API_BASE gameID c s n w'), r.url ≠ r'.url) ∧
      (∀ r ∈ issued w (joinGame ax API_BASE lobbyCode p w),
        ∀ r' ∈ issued w' (getGameState ax' API_BASE gameID w'),
          ¬ (r.method = r'.method ∧ r.url = r'.url)) ∧
      (∀ r ∈ issued w (getGameState ax API_BASE lobbyCode w),
        ∀ r' ∈ issued w' (addBots ax' API_BASE gameID c s n w'),
          ¬ (r.method = r'.method ∧ r.url = r'.url))) := by
  refine ⟨?_, ?_, ?_, ?_⟩
  · intro a b p q h
    rw [joinGame_issued, joinGame_issued] at h
    simp only [List.map, joinRequest, joinUrl, List.cons.injEq, and_true] at h
    exact str_append_left_cancel (str_append_right_cancel h)
  · intro a b h
    rw [getGameState_issued, getGameState_issued] at h
    simp only [List.map, stateRequest, stateUrl, List.cons.injEq, and_true] at h
    exact str_append_left_cancel (str_append_right_cancel h)
  · intro a b c s n c' s' n' h
    rw [addBots_issued, addBots_issued] at h
    simp only [List.map, addBotsRequest, addBotsUrl, List.cons.injEq, and_true] at h
    exact str_append_left_cancel (str_append_right_cancel h)
  · intro lobbyCode gameID p c s n
    rw [joinGame_issued, addBots_issued, getGameState_issued, getGameState_issued,
      getGameState_issued]
    refine ⟨rfl, rfl, rfl, ?_, ?_, ?_⟩
    · intro r hr r' hr'
      rw [List.mem_singleton] at hr hr'
      rw [hr, hr']
      exact join_ne_addBots_suffix _ _
    · intro r hr r' hr'
      rw [List.mem_singleton] at hr hr'
      rw [hr, hr']
      intro h
      exact absurd h.1 (by simp [joinRequest, stateRequest])
    · intro r hr r' hr'
      rw [List.mem_singleton] at hr hr'
      rw [hr, hr']
      intro h
      exact absurd h.1 (by simp [addBotsRequest, stateRequest])

/-- Witness for C10: the join URL and the add-bots URL of the same identifier
differ, and equal join URLs come from equal lobby codes. -/
theorem request_urls_unambiguous_witness :
    (∀ r ∈ issued (Net.init ()) (joinGame (constAxios .null) "http://h/api" "g7" (.str "Ann")
        (Net.init ())),
      ∀ r' ∈ issued (Net.init 0) (addBots countingAxios "http://h/api" "g7" .undefined
        .undefined .undefined (Net.init 0)), r.url ≠ r'.url) ∧
    "g7" = "g7" :=
  ⟨((request_urls_unambiguous "http://h/api" (constAxios .null) countingAxios (Net.init ())
      (Net.init 0)).2.2.2 "g7" "g7" (.str "Ann") .undefined .undefined .undefined).2.2.2.1,
   (request_urls_unambiguous "http://h/api" (constAxios .null) countingAxios (Net.init ())
      (Net.init 0)).1 "g7" "g7" (.str "Ann") (.str "Bob") rfl⟩

/-- C4 as stated fails: addBots called with count 0 hands the transport a POST
carrying count 0 and fulfils with the response's data. -/
theorem addBots_zero_count_is_sent :
    (addBots (constAxios (.obj [("bots", .null)])) "http://h/api" "g7" (.num 0)
        .undefined .undefined (Net.init ())).2.sent =
      [⟨.POST, "http://h/api/games/g7/add-bots",
        some (.obj [("count", .num 0), ("strategy", .str "smart"),
          ("namePrefix", .str "Bot")])⟩] ∧
    (addBots (constAxios (.obj [("bots", .null)])) "http://h/api" "g7" (.num 0)
        .undefined .undefined (Net.init ())).1 = .fulfilled (.obj [("bots", .null)]) := by
  constructor
  · rw [addBots_run]; rfl
  · rfl

/-- C4 amended: for every gameID and every count that is 0 or negative, addBots
does not validate the count: it hands the transport exactly one POST to the
add-bots URL whose body carries that count unchanged, and it settles as the
transport does, fulfilled with the response's data or rejected with the
transport's reason. -/
theorem addBots_nonpositive_count_sent {σ : Type} (ax : Axios σ) (API_BASE : String)
    (gameID : String) (strategy namePrefix : JsVal) (w : Net σ) (n : Int) (_hn : n ≤ 0) :
    (addBots ax API_BASE gameID (.num n) strategy namePrefix w).2.sent =
      w.sent ++ [⟨.POST, API_BASE ++ "/games/" ++ gameID ++ "/add-bots",
        some (.obj [("count", .num n), ("strategy", param strategy (.str "smart")),
          ("namePrefix", param namePrefix (.str "Bot"))])⟩] ∧
    (∀ resp : Response,
      (ax.respond (addBotsRequest API_BASE gameID (.num n) strategy namePrefix) w.st).1 =
        .fulfilled resp →
      (addBots ax API_BASE gameID (.num n) strategy namePrefix w).1 = .fulfilled resp.data) ∧
    (∀ e : JsVal,
      (ax.respond (addBotsRequest API_BASE gameID (.num n) strategy namePrefix) w.st).1 =
        .rejected e →
      (addBots ax API_BASE gameID (.num n) strategy namePrefix w).1 = .rejected e) := by
  refine ⟨?_, ?_, ?_⟩
  · rw [addBots_run]; rfl
  · intro resp h; rw [addBots_run]; simp only [h]; rfl
  · intro e h; rw [addBots_run]; simp only [h]; rfl

/-- Witness for C4 amended at count -3. -/
theorem addBots_nonpositive_count_sent_witness :
    ((-3 : Int) ≤ 0) ∧
    (addBots (constAxios .null) "http://h/api" "g7" (.num (-3)) .undefined .undefined
        (Net.init ())).2.sent =
      [] ++ [⟨.POST, "http://h/api" ++ "/games/" ++ "g7" ++ "/add-bots",
        some (.obj [("count", .num (-3)), ("strategy", .str "smart"),
          ("namePrefix", .str "Bot")])⟩] :=
  ⟨by decide,
   (addBots_nonpositive_count_sent (constAxios .null) "http://h/api" "g7" .undefined
      .undefined (Net.init ()) (-3) (by decide)).1⟩

/-- C5 as stated fails: joinGame called with the empty lobby code hands the
transport a POST to the URL with an empty path segment and fulfils with the
response's data. -/
theorem joinGame_empty_code_is_sent :
    (joinGame (constAxios (.obj [])) "http://h/api" "" (.str "Ann")
        (Net.init ())).2.sent =
      [⟨.POST, "http://h/api/games//join", some (.obj [("playerName", .str "Ann")])⟩] ∧
    (joinGame (constAxios (.obj [])) "http://h/api" "" (.str "Ann")
        (Net.init ())).1 = .fulfilled (.obj []) := by
  constructor
  · rw [joinGame_run]; rfl
  · rfl

/-- C5 amended: joinGame does not validate its arguments. For every playerName,
joinGame called with the empty lobbyCode hands the transport exactly one POST
to API_BASE + "/games//join" with that playerName in the body, and for every
lobbyCode and every string playerName, in particular every one that is empty
after trimming, joinGame hands the transport exactly one POST carrying that
playerName unchanged; in both cases a fulfilled response's data is returned. -/
theorem joinGame_unvalidated_arguments {σ : Type} (ax : Axios σ) (API_BASE : String)
    (w : Net σ) :
    (∀ playerName : JsVal,
      (joinGame ax API_BASE "" playerName w).2.sent =
        w.sent ++ [⟨.POST, API_BASE ++ "/games//join",
          some (.obj [("playerName", playerName)])⟩] ∧
      (∀ resp : Response,
        (ax.respond ⟨.POST, API_BASE ++ "/games//join",
          some (.obj [("playerName", playerName)])⟩ w.st).1 = .fulfilled resp →
        (joinGame ax API_BASE "" playerName w).1 = .fulfilled resp.data)) ∧
    (∀ lobbyCode name : String,
      (joinGame ax API_BASE lobbyCode (.str name) w).2.sent =
        w.sent ++ [⟨.POST, API_BASE ++ "/games/" ++ lobbyCode ++ "/join",
          some (.obj [("playerName", .str name)])⟩] ∧
      (∀ resp : Response,
        (ax.respond ⟨.POST, API_BASE ++ "/games/" ++ lobbyCode ++ "/join",
          some (.obj [("playerName", .str name)])⟩ w.st).1 = .fulfilled resp →
        (joinGame ax API_BASE lobbyCode (.str name) w).1 = .fulfilled resp.data)) := by
  refine ⟨?_, ?_⟩
  · intro playerName
    refine ⟨?_, ?_⟩
    · rw [joinGame_run, ← empty_code_url]; rfl
    · intro resp h
      rw [← empty_code_url] at h
      rw [joinGame_run]
      show afterAwait (ax.respond ⟨.POST, API_BASE ++ "/games/" ++ "" ++ "/join",
        some (.obj [("playerName", playerName)])⟩ w.st).1 = _
      rw [h]; rfl
  · intro lobbyCode name
    refine ⟨?_, ?_⟩
    · rw [joinGame_run]; rfl
    · intro resp h
      rw [joinGame_run]
      show afterAwait (ax.respond ⟨.POST, API_BASE ++ "/games/" ++ lobbyCode ++ "/join",
        some (.obj [("playerName", .str name)])⟩ w.st).1 = _
      rw [h]; rfl

/-- Witness for C5 amended: the empty lobby code with a player name made of a
space, a no-break space and a tab, which trimming empties. -/
theorem joinGame_unvalidated_arguments_witness :
    (joinGame (constAxios .null) "http://h/api" "" (.str " \u00a0\t") (Net.init ())).2.sent =
      [] ++ [⟨.POST, "http://h/api" ++ "/games/" ++ "" ++ "/join",
        some (.obj [("playerName", .str " \u00a0\t")])⟩] ∧
    (joinGame (constAxios .null) "http://h/api" "" (.str " \u00a0\t") (Net.init ())).1 =
      .fulfilled .null :=
  ⟨((joinGame_unvalidated_arguments (constAxios .null) "http://h/api" (Net.init ())).2
      "" " \u00a0\t").1,
   ((joinGame_unvalidated_arguments (constAxios .null) "http://h/api" (Net.init ())).2
      "" " \u00a0\t").2 ⟨.null, 200⟩ rfl⟩

/-- C6 as stated fails: a transport success whose data is the empty object,
with neither sessionId nor playerId, is returned by joinGame as a successful
result. -/
theorem joinGame_returns_incomplete_data :
    lacksId (.obj []) "sessionId" ∧ lacksId (.obj []) "playerId" ∧
    (joinGame (constAxios (.obj [])) "http://h/api" "ABCD" (.str "Ann")
        (Net.init ())).1 = .fulfilled (.obj []) :=
  ⟨Or.inl rfl, Or.inl rfl, rfl⟩

/-- C6 amended: for every transport-success response to joinGame whose data
lacks a sessionId or a playerId, or has either one empty, joinGame returns that
data unchanged as a successful result; it does not inspect the data. -/
theorem joinGame_returns_data_unchecked {σ : Type} (ax : Axios σ) (API_BASE : String)
    (lobbyCode : String) (playerName : JsVal) (w : Net σ) (resp : Response)
    (hresp : (ax.respond (joinRequest API_BASE lobbyCode playerName) w.st).1 = .fulfilled resp)
    (_hid : lacksId resp.data "sessionId" ∨ lacksId resp.data "playerId") :
    (joinGame ax API_BASE lobbyCode playerName w).1 = .fulfilled resp.data := by
  rw [joinGame_run]; simp only [hresp]; rfl

/-- Witness for C6 amended: the data has a sessionId and an empty playerId. -/
theorem joinGame_returns_data_unchecked_witness :
    lacksId (.obj [("sessionId", .str "s1"), ("playerId", .str "")]) "playerId" ∧
    (joinGame (constAxios (.obj [("sessionId", .str "s1"), ("playerId", .str "")]))
        "http://h/api" "ABCD" (.str "Ann") (Net.init ())).1 =
      .fulfilled (.obj [("sessionId", .str "s1"), ("playerId", .str "")]) :=
  ⟨Or.inr (Or.inr rfl),
   joinGame_returns_data_unchecked
      (constAxios (.obj [("sessionId", .str "s1"), ("playerId", .str "")]))
      "http://h/api" "ABCD" (.str "Ann") (Net.init ())
      ⟨.obj [("sessionId", .str "s1"), ("playerId", .str "")], 200⟩ rfl
      (Or.inr (Or.inr (Or.inr rfl)))⟩

/-- C7 as stated fails: with a transport that rejects, each of joinGame,
getGameState and addBots rejects with the transport's reason; none of them
returns a value. -/
theorem operations_reject_on_transport_failure :
    (joinGame (failingAxios (.str "Network Error")) "http://h/api" "ABCD" (.str "Ann")
        (Net.init ())).1 = .rejected (.str "Network Error") ∧
    (getGameState (failingAxios (.str "Network Error")) "http://h/api" "g7"
        (Net.init ())).1 = .rejected (.str "Network Error") ∧
    (addBots (failingAxios (.str "Network Error")) "http://h/api" "g7" .undefined
        .undefined .undefined (Net.init ())).1 = .rejected (.str "Network Error") :=
  ⟨rfl, rfl, rfl⟩

/-- C7 amended: joinGame, getGameState and addBots do not handle transport
failure. For every transport failure, that is whenever the transport rejects
the request of the operation with a reason, the operation rejects with the same
reason unchanged, after exactly one transport call. -/
theorem transport_failure_propagates {σ : Type} (ax : Axios σ) (API_BASE : String)
    (w : Net σ) (e : JsVal) :
    (∀ (lobbyCode : String) (playerName : JsVal),
      (ax.respond (joinRequest API_BASE lobbyCode playerName) w.st).1 = .rejected e →
      (joinGame ax API_BASE lobbyCode playerName w).1 = .rejected e ∧
      (joinGame ax API_BASE lobbyCode playerName w).2.sent =
        w.sent ++ [joinRequest API_BASE lobbyCode playerName]) ∧
    (∀ gameID : String,
      (ax.respond (stateRequest API_BASE gameID) w.st).1 = .rejected e →
      (getGameState ax API_BASE gameID w).1 = .rejected e ∧
      (getGameState ax API_BASE gameID w).2.sent = w.sent ++ [stateRequest API_BASE gameID]) ∧
    (∀ (gameID : String) (count strategy namePrefix : JsVal),
      (ax.respond (addBotsRequest API_BASE gameID count strategy namePrefix) w.st).1 =
        .rejected e →
      (addBots ax API_BASE gameID count strategy namePrefix w).1 = .rejected e ∧
      (addBots ax API_BASE gameID count strategy namePrefix w).2.sent =
        w.sent ++ [addBotsRequest API_BASE gameID count strategy namePrefix]) := by
  refine ⟨?_, ?_, ?_⟩
  · intro lobbyCode playerName h
    rw [joinGame_run]; exact ⟨by simp [h, afterAwait], rfl⟩
  · intro gameID h
    rw [getGameState_run]; exact ⟨by simp [h, afterAwait], rfl⟩
  · intro gameID count strategy namePrefix h
    rw [addBots_run]; exact ⟨by simp [h, afterAwait], rfl⟩

/-- Witness for C7 amended with the transport that always rejects. -/
theorem transport_failure_propagates_witness :
    (getGameState (failingAxios (.num 503)) "http://h/api" "g7" (Net.init ())).1 =
      .rejected (.num 503) ∧
    (addBots (failingAxios (.num 503)) "http://h/api" "g7" (.num 2) .undefined
        .undefined (Net.init ())).1 = .rejected (.num 503) :=
  ⟨((transport_failure_propagates (failingAxios (.num 503)) "http://h/api" (Net.init ())
      (.num 503)).2.1 "g7" rfl).1,
   ((transport_failure_propagates (failingAxios (.num 503)) "http://h/api" (Net.init ())
      (.num 503)).2.2 "g7" (.num 2) .undefined .undefined rfl).1⟩

/-- C8 as stated fails: two distinct calls of joinGame with identical arguments
hand the transport two identical requests, whose body has the single field
playerName; nothing in them differs from one call to the next. -/
theorem joinGame_twice_identical_requests :
    ∃ r : Request,
      r.data = some (.obj [("playerName", .str "Ann")]) ∧
      (joinGame countingAxios "http://h/api" "ABCD" (.str "Ann")
        (joinGame countingAxios "http://h/api" "ABCD" (.str "Ann")
          (Net.init 0)).2).2.sent = [r, r] :=
  ⟨joinRequest "http://h/api" "ABCD" (.str "Ann"), rfl, by
    rw [joinGame_run, joinGame_run]; rfl⟩

/-- C8 amended: the requests issued by joinGame and by addBots carry no
idempotency token. The request is determined by API_BASE and the arguments
alone: its body is exactly the object with the field playerName, respectively
the fields count, strategy and namePrefix, and two distinct calls with
identical arguments hand the transport identical requests. -/
theorem requests_carry_no_token {σ : Type} (ax : Axios σ) (API_BASE : String)
    (w : Net σ) :
    (∀ (lobbyCode : String) (playerName : JsVal),
      (joinGame ax API_BASE lobbyCode playerName
        (joinGame ax API_BASE lobbyCode playerName w).2).2.sent =
        w.sent ++ [⟨.POST, API_BASE ++ "/games/" ++ lobbyCode ++ "/join",
            some (.obj [("playerName", playerName)])⟩,
          ⟨.POST, API_BASE ++ "/games/" ++ lobbyCode ++ "/join",
            some (.obj [("playerName", playerName)])⟩]) ∧
    (∀ (gameID : String) (count strategy namePrefix : JsVal),
      (addBots ax API_BASE gameID count strategy namePrefix
        (addBots ax API_BASE gameID count strategy namePrefix w).2).2.sent =
        w.sent ++ [⟨.POST, API_BASE ++ "/games/" ++ gameID ++ "/add-bots",
            some (.obj [("count", param count (.num 1)),
              ("strategy", param strategy (.str "smart")),
              ("namePrefix", param namePrefix (.str "Bot"))])⟩,
          ⟨.POST, API_BASE ++ "/games/" ++ gameID ++ "/add-bots",
            some (.obj [("count", param count (.num 1)),
              ("strategy", param strategy (.str "smart")),
              ("namePrefix", param namePrefix (.str "Bot"))])⟩]) := by
  refine ⟨?_, ?_⟩
  · intro lobbyCode playerName
    rw [joinGame_run, joinGame_run]
    simp [joinRequest, joinUrl]
  · intro gameID count strategy namePrefix
    rw [addBots_run, addBots_run]
    simp [addBotsRequest, addBotsUrl]

/-- C9 as stated fails: two calls of getGameState for the same id, issued while
none is in flight and without awaiting in between, hand the transport two
requests, both outstanding at once, and when the transport answers them
differently the two callers receive different states. The two requests are
the request one call of getGameState logs. -/
theorem getGameState_twice_two_outstanding :
    (getGameState countingAxios "http://h/api" "g7" (Net.init 0)).2.sent =
      [⟨.GET, "http://h/api/games/g7/state", none⟩] ∧
    (getGameState countingAxios "http://h/api" "g7" (Net.init 0)).2.sent =
      (getGameStateStart "http://h/api" "g7" ⟨[], []⟩).2.sent ∧
    (startMany "http://h/api" "g7" 2 ⟨[], []⟩).1 = [0, 1] ∧
    (startMany "http://h/api" "g7" 2 ⟨[], []⟩).2.sent =
      [⟨.GET, "http://h/api/games/g7/state", none⟩,
        ⟨.GET, "http://h/api/games/g7/state", none⟩] ∧
    (startMany "http://h/api" "g7" 2 ⟨[], []⟩).2.inflight = [0, 1] ∧
    (settleAll (fun t => .fulfilled ⟨.num (Int.ofNat t + 10), 200⟩)
      (startMany "http://h/api" "g7" 2 ⟨[], []⟩).1
      (startMany "http://h/api" "g7" 2 ⟨[], []⟩).2).1 =
      [(0, .fulfilled (.num 10)), (1, .fulfilled (.num 11))] := by
  refine ⟨?_, ?_, rfl, ?_, rfl, rfl⟩
  · rw [getGameState_run]; rfl
  · rw [getGameState_run]; rfl
  · simp [startMany, getGameStateStart]

/-- C9 amended: getGameState does no in-flight deduplication. One call of
getGameState is the start of the call, which hands the transport its GET, and
the resumption with the transport's answer. Issuing it N times for the same id
while none is in flight, without awaiting in between, results in exactly N
transport GET calls to the state URL of that id: the N pending calls are the
positions of N new requests in the log, each holding that GET, all N
outstanding at once; when the requests settle, each caller receives the data of
the response to its own request (or its rejection), and nothing stays in
flight. -/
theorem getGameState_no_deduplication {σ : Type} (ax : Axios σ) (w : Net σ)
    (API_BASE : String) (gameID : String) (n : Nat) (l : Loop) (hidle : l.inflight = [])
    (answers : Nat → Settled Response) :
    ((getGameState ax API_BASE gameID w).2.sent =
        (getGameStateStart API_BASE gameID ⟨w.sent, []⟩).2.sent ∧
      (getGameState ax API_BASE gameID w).1 =
        (getGameStateResume (getGameStateStart API_BASE gameID ⟨w.sent, []⟩).1
          (ax.respond ⟨.GET, API_BASE ++ "/games/" ++ gameID ++ "/state", none⟩ w.st).1
          (getGameStateStart API_BASE gameID ⟨w.sent, []⟩).2).1) ∧
    (startMany API_BASE gameID n l).1 = List.range' l.sent.length n ∧
    (startMany API_BASE gameID n l).2.sent =
      l.sent ++ List.replicate n
        ⟨.GET, API_BASE ++ "/games/" ++ gameID ++ "/state", none⟩ ∧
    (startMany API_BASE gameID n l).2.inflight = List.range' l.sent.length n ∧
    (∀ t ∈ (startMany API_BASE gameID n l).1,
      (startMany API_BASE gameID n l).2.sent[t]? =
        some ⟨.GET, API_BASE ++ "/games/" ++ gameID ++ "/state", none⟩) ∧
    (settleAll answers (startMany API_BASE gameID n l).1 (startMany API_BASE gameID n l).2).1 =
      (List.range' l.sent.length n).map (fun t => (t, afterAwait (answers t))) ∧
    (∀ (t : Nat) (resp : Response), t ∈ (startMany API_BASE gameID n l).1 →
      answers t = .fulfilled resp →
      (t, .fulfilled resp.data) ∈
        (settleAll answers (startMany API_BASE gameID n l).1
          (startMany API_BASE gameID n l).2).1) ∧
    (settleAll answers (startMany API_BASE gameID n l).1
      (startMany API_BASE gameID n l).2).2.inflight = [] := by
  obtain ⟨h1, h2, h3⟩ := startMany_spec API_BASE gameID n l
  rw [hidle, List.nil_append] at h3
  refine ⟨getGameState_start_resume ax API_BASE gameID w, h1, ?_, h3, ?_, ?_, ?_, ?_⟩
  · rw [h2]; rfl
  · intro t ht
    rw [h1] at ht
    rw [h2]
    exact replicate_at _ _ _ _ ht
  · rw [settleAll_results, h1]
  · intro t resp ht hresp
    rw [settleAll_results, List.mem_map]
    exact ⟨t, ht, by rw [hresp]; rfl⟩
  · exact (settleAll_loop answers _ _ (by rw [h3, h1])).1

/-- Witness for C9 amended: three calls from an idle loop are three outstanding
requests at the positions 0, 1, 2, and the caller of the second receives the
answer to the second request. -/
theorem getGameState_no_deduplication_witness :
    (⟨[], []⟩ : Loop).inflight = [] ∧
    (startMany "http://h/api" "g7" 3 ⟨[], []⟩).2.inflight = List.range' 0 3 ∧
    (1, .fulfilled (.num 11)) ∈
      (settleAll (fun t => .fulfilled ⟨.num (Int.ofNat t + 10), 200⟩)
        (startMany "http://h/api" "g7" 3 ⟨[], []⟩).1
        (startMany "http://h/api" "g7" 3 ⟨[], []⟩).2).1 :=
  ⟨rfl,
   (getGameState_no_deduplication countingAxios (Net.init 0) "http://h/api" "g7" 3 ⟨[], []⟩ rfl
      (fun t => .fulfilled ⟨.num (Int.ofNat t + 10), 200⟩)).2.2.2.1,
   (getGameState_no_deduplication countingAxios (Net.init 0) "http://h/api" "g7" 3 ⟨[], []⟩ rfl
      (fun t => .fulfilled ⟨.num (Int.ofNat t + 10), 200⟩)).2.2.2.2.2.2.1 1 ⟨.num 11, 200⟩
      (by decide) rfl⟩

end GameApi
